import Mathlib

/-!
Shallow embedding of the event_admin repository (src/app/main.py, models.py,
schemas.py) and proofs about its claims.

Modelling conventions:
* Database rows are Lean structures mirroring models.py; timestamps are `Nat`.
* Handlers are pure functions from an explicit database value and the request
  parameters to `Except HErr result`; raising HTTPException(c, d) is
  `.error ⟨c, d⟩`, and an exception that escapes to the app-wide
  `internal_server_error_handler` is `.error ⟨500, "Internal Server Error"⟩`.
* A query `db.query(M).filter(...)` that references a column of a model other
  than `M` without a `.join(...)` is embedded, as SQLAlchemy executes it, as an
  implicit cross join (cartesian product) of the two tables.
* `Query.all()` on a full ORM entity deduplicates result rows by primary key
  (legacy Query uniquifying), keeping the first occurrence.
* SQL `ORDER BY` on a mapped column is embedded as a stable sort
  (`List.insertionSort`); ordering by a hasattr-true non-column attribute
  (the declarative `metadata` object, a relationship) raises in SQLAlchemy and
  surfaces as a 500.
* `datetime.now()` is an explicit `now : Nat` argument.
* Form/query string parameters typed `str` in the handler arrive as
  `Option String` (FastAPI passes `None` when absent); parameters typed `int`
  go through `parseIntQuery`, the framework's integer coercion.
-/

namespace EventAdmin

/-- Event row (models.py, class Event). -/
structure Event where
  id : Nat
  title : String
  status : String
  description : Option String
  start_at : Nat
  location : String
  end_at : Nat
  price : Int
  visitor_limit : Option Int
  created_at : Nat
  updated_at : Nat
  deriving Repr, DecidableEq

/-- Visitor row (models.py, class Visitor). -/
structure Visitor where
  id : Nat
  first_name : String
  last_name : String
  phone : String
  email : Option String
  created_at : Nat
  updated_at : Nat
  deriving Repr, DecidableEq

/-- Registration row (models.py, class Registration). -/
structure Registration where
  id : Nat
  visitor_id : Nat
  event_id : Nat
  status : String
  price : Option Int
  billed_amount : Option Int
  refund_amount : Option Int
  billed_at : Option Nat
  refunded_at : Option Nat
  created_at : Nat
  updated_at : Nat
  deriving Repr, DecidableEq

/-- The three tables of the relational store. -/
structure DB where
  events : List Event
  visitors : List Visitor
  registrations : List Registration
  deriving Repr, DecidableEq

/-- An HTTP error response: HTTPException(code, detail), a framework 422, or the
app-wide 500 handler. -/
structure HErr where
  code : Nat
  detail : String
  deriving Repr, DecidableEq

/-- A RedirectResponse(url, status_code). -/
structure Redirect where
  code : Nat
  url : String
  deriving Repr, DecidableEq

/-- Python `str.isdigit()` restricted to ASCII: non-empty and all characters
decimal digits (the repository only feeds it ASCII form/query strings). -/
def isdigit (s : String) : Bool :=
  s != "" && s.toList.all Char.isDigit

/-- Python `int()` applied to a digit string. -/
def strToNat (s : String) : Nat :=
  s.toList.foldl (fun n c => n * 10 + (c.toNat - 48)) 0

/-- FastAPI/pydantic coercion of a string to `int`: an optional leading minus
sign followed by at least one digit (whitespace/underscore forms are out of
scope; the repository's inputs of interest are plain signed decimals). -/
def strToInt? (s : String) : Option Int :=
  match s.toList with
  | '-' :: rest =>
    if rest != [] && rest.all Char.isDigit then
      some (-(strToNat (String.mk rest) : Int))
    else none
  | _ => if isdigit s then some (strToNat s) else none

/-- FastAPI parsing of an `int = Query(None)` parameter: absent stays absent;
an integer-shaped string is coerced; anything else fails with a 422 validation
error before the handler body runs. -/
def parseIntQuery : Option String → Except HErr (Option Int)
  | none => .ok none
  | some s =>
    match strToInt? s with
    | some n => .ok (some n)
    | none => .error ⟨422, "value is not a valid integer"⟩

/-- Python truthiness of an optional string: `None` and `""` are falsy. -/
def truthyStr : Option String → Bool
  | none => false
  | some s => s != ""

/-- Python truthiness of an optional int: `None` and `0` are falsy. -/
def truthyInt : Option Int → Bool
  | none => false
  | some n => n != 0

/-- The guard `x == "" or x is None or x.isdigit()` used on visitor_id /
event_id / visitor_limit / billed_amount / refund_amount strings. -/
def validNumStr : Option String → Bool
  | none => true
  | some s => s == "" || isdigit s

/-- What `getattr(model, name)` yields for a name with `hasattr(model, name)`
true: a mapped column (sortable, with the ordering of its values), or a
non-column ORM attribute — the declarative `metadata` object or a relationship
attribute — on which `.desc()` / `order_by(...)` raises. -/
inductive ModelAttr (α : Type) where
  | col (le : α → α → Bool)
  | nonColumn

/-- main.py, order_query: if sort_by is truthy and `hasattr(model, sort_by)`,
order by `getattr(model, sort_by)`, descending when sort_order is truthy,
ascending otherwise; else return the query unchanged.  `attrs` is the
hasattr/getattr view of the model (`none` when hasattr is false).  Ordering by
a mapped column is a stable sort; `getattr` on a hasattr-true non-column
attribute (metadata, a relationship) is not a column clause, so `.desc()` /
`order_by(...)` raises and the app-wide handler returns 500. -/
def order_query {α : Type} (attrs : String → Option (ModelAttr α))
    (rows : List α) (sort_by : Option String) (sort_order : Option Int) :
    Except HErr (List α) :=
  if truthyStr sort_by then
    match attrs (sort_by.getD "") with
    | none => .ok rows
    | some (.col le) =>
      if truthyInt sort_order then
        .ok (List.insertionSort (fun a b => le b a = true) rows)
      else
        .ok (List.insertionSort (fun a b => le a b = true) rows)
    | some .nonColumn => .error ⟨500, "Internal Server Error"⟩
  else .ok rows

/-- Legacy SQLAlchemy `Query.all()` row uniquifying on a full entity:
deduplicate by primary key, keeping the first occurrence. -/
def dedupById {α : Type} (key : α → Nat) : List α → List α
  | [] => []
  | x :: xs => x :: (dedupById key xs).filter (fun y => key y != key x)

/-- Contiguous sublist test, used for SQL `LIKE '%pat%'`. -/
def isSubList (needle hay : List Char) : Bool :=
  match hay with
  | [] => needle.isEmpty
  | _ :: t => needle.isPrefixOf hay || isSubList needle t

/-- Case-insensitive substring match: `column.ilike(f"%{search}%")`. -/
def containsSub (hay pat : String) : Bool :=
  isSubList pat.toLower.toList hay.toLower.toList

/-- SQL `SUM` over the selected rows: NULL on the empty set, else the sum. -/
def sqlSum (l : List Int) : Option Int :=
  match l with
  | [] => none
  | _ => some l.sum

/-- SQL `COALESCE(x, 0)`. -/
def coalesce0 (x : Option Int) : Int := x.getD 0

/-- Python `scalar() or 0`: None becomes 0, any number is kept (0 stays 0). -/
def orZero : Option Int → Int
  | none => 0
  | some n => if n = 0 then 0 else n

/-- Ordering of a nullable integer column (NULLs first, SQLite ASC default). -/
def leOptInt : Option Int → Option Int → Bool
  | none, _ => true
  | some _, none => false
  | some a, some b => a ≤ b

/-- Ordering of a nullable timestamp column. -/
def leOptNat : Option Nat → Option Nat → Bool
  | none, _ => true
  | some _, none => false
  | some a, some b => a ≤ b

/-- Ordering of a nullable string column. -/
def leOptStr : Option String → Option String → Bool
  | none, _ => true
  | some _, none => false
  | some a, some b => decide (a ≤ b)

/-- hasattr/getattr view of models.Event: its eleven mapped columns, plus the
hasattr-true non-column ORM attributes — the declarative `metadata` object and
the `registrations` relationship.  Inherited Python-object dunder names are
outside the modelled attribute namespace. -/
def eventAttrs (s : String) : Option (ModelAttr Event) :=
  if s = "id" then some (.col (fun a b => a.id ≤ b.id))
  else if s = "title" then some (.col (fun a b => decide (a.title ≤ b.title)))
  else if s = "status" then some (.col (fun a b => decide (a.status ≤ b.status)))
  else if s = "description" then some (.col (fun a b => leOptStr a.description b.description))
  else if s = "start_at" then some (.col (fun a b => a.start_at ≤ b.start_at))
  else if s = "location" then some (.col (fun a b => decide (a.location ≤ b.location)))
  else if s = "end_at" then some (.col (fun a b => a.end_at ≤ b.end_at))
  else if s = "price" then some (.col (fun a b => a.price ≤ b.price))
  else if s = "visitor_limit" then some (.col (fun a b => leOptInt a.visitor_limit b.visitor_limit))
  else if s = "created_at" then some (.col (fun a b => a.created_at ≤ b.created_at))
  else if s = "updated_at" then some (.col (fun a b => a.updated_at ≤ b.updated_at))
  else if s = "metadata" then some .nonColumn
  else if s = "registrations" then some .nonColumn
  else none

/-- hasattr/getattr view of models.Visitor: its seven mapped columns plus the
non-column `metadata` and `registrations` attributes. -/
def visitorAttrs (s : String) : Option (ModelAttr Visitor) :=
  if s = "id" then some (.col (fun a b => a.id ≤ b.id))
  else if s = "first_name" then some (.col (fun a b => decide (a.first_name ≤ b.first_name)))
  else if s = "last_name" then some (.col (fun a b => decide (a.last_name ≤ b.last_name)))
  else if s = "phone" then some (.col (fun a b => decide (a.phone ≤ b.phone)))
  else if s = "email" then some (.col (fun a b => leOptStr a.email b.email))
  else if s = "created_at" then some (.col (fun a b => a.created_at ≤ b.created_at))
  else if s = "updated_at" then some (.col (fun a b => a.updated_at ≤ b.updated_at))
  else if s = "metadata" then some .nonColumn
  else if s = "registrations" then some .nonColumn
  else none

/-- hasattr/getattr view of models.Registration: its eleven mapped columns plus
the non-column `metadata`, `visitor` and `event` attributes. -/
def regAttrs (s : String) : Option (ModelAttr Registration) :=
  if s = "id" then some (.col (fun a b => a.id ≤ b.id))
  else if s = "visitor_id" then some (.col (fun a b => a.visitor_id ≤ b.visitor_id))
  else if s = "event_id" then some (.col (fun a b => a.event_id ≤ b.event_id))
  else if s = "status" then some (.col (fun a b => decide (a.status ≤ b.status)))
  else if s = "price" then some (.col (fun a b => leOptInt a.price b.price))
  else if s = "billed_amount" then some (.col (fun a b => leOptInt a.billed_amount b.billed_amount))
  else if s = "refund_amount" then some (.col (fun a b => leOptInt a.refund_amount b.refund_amount))
  else if s = "billed_at" then some (.col (fun a b => leOptNat a.billed_at b.billed_at))
  else if s = "refunded_at" then some (.col (fun a b => leOptNat a.refunded_at b.refunded_at))
  else if s = "created_at" then some (.col (fun a b => a.created_at ≤ b.created_at))
  else if s = "updated_at" then some (.col (fun a b => a.updated_at ≤ b.updated_at))
  else if s = "metadata" then some .nonColumn
  else if s = "visitor" then some .nonColumn
  else if s = "event" then some .nonColumn
  else none

/-- get_events text search: ILIKE over title, description, location, OR-joined.
A NULL description never satisfies its disjunct (SQL NULL semantics). -/
def eventSearchHit (search : String) (e : Event) : Bool :=
  containsSub e.title search ||
  (match e.description with
   | none => false
   | some d => containsSub d search) ||
  containsSub e.location search

/-- get_visitors text search: ILIKE over first_name, last_name, email. -/
def visitorSearchHit (search : String) (v : Visitor) : Bool :=
  containsSub v.first_name search ||
  containsSub v.last_name search ||
  (match v.email with
   | none => false
   | some m => containsSub m search)

/-- main.py lines 80-113, get_events.  The visitor_id filter references
`models.Registration.visitor_id` with no `.join(models.Registration)`, so the
emitted SQL is a cross join of events with registrations; the string value is
compared against the integer column under SQLite type affinity (numeric
comparison). -/
def get_events (db : DB) (visitor_id : Option String) (sort_by : Option String)
    (sort_order : Option Int) (search : Option String) (status : Option String) :
    Except HErr (List Event) := do
  if !(validNumStr visitor_id) then
    throw ⟨400, "Invalid visitor id"⟩
  let rows :=
    if truthyStr visitor_id then
      ((db.events.product db.registrations).filter
        (fun p => p.2.visitor_id == strToNat (visitor_id.getD ""))).map Prod.fst
    else db.events
  let rows :=
    if truthyStr search then rows.filter (eventSearchHit (search.getD "")) else rows
  let rows :=
    if truthyStr status then rows.filter (fun e => e.status == status.getD "") else rows
  let rows ← order_query eventAttrs rows sort_by sort_order
  pure (dedupById Event.id rows)

/-- main.py lines 232-249, get_visitors.  `event_id: int = Query(None)` is
coerced by the framework (422 on failure); the event_id filter references
`models.Registration.event_id` with no join, hence a cross join of visitors
with registrations. -/
def get_visitors (db : DB) (event_id : Option String) (sort_by : Option String)
    (sort_order : Option Int) (search : Option String) :
    Except HErr (List Visitor) := do
  let eid ← parseIntQuery event_id
  let rows :=
    if truthyInt eid then
      ((db.visitors.product db.registrations).filter
        (fun p => (p.2.event_id : Int) == eid.getD 0)).map Prod.fst
    else db.visitors
  let rows :=
    if truthyStr search then rows.filter (visitorSearchHit (search.getD "")) else rows
  let rows ← order_query visitorAttrs rows sort_by sort_order
  pure (dedupById Visitor.id rows)

/-- `registration.event.title` for the display map: a dangling foreign key makes
`registration.event` None, and the AttributeError escapes to the app-wide 500
handler. -/
def regEventTitle (db : DB) (r : Registration) : Except HErr String :=
  match db.events.find? (fun e => e.id == r.event_id) with
  | none => .error ⟨500, "Internal Server Error"⟩
  | some e => .ok e.title

/-- `f"{registration.visitor.first_name} {registration.visitor.last_name}"`. -/
def regVisitorName (db : DB) (r : Registration) : Except HErr String :=
  match db.visitors.find? (fun v => v.id == r.visitor_id) with
  | none => .error ⟨500, "Internal Server Error"⟩
  | some v => .ok (v.first_name ++ " " ++ v.last_name)

/-- Python `dict.setdefault(k, v)` on an association list. -/
def setdefault (m : List (Nat × String)) (k : Nat) (v : String) :
    List (Nat × String) :=
  if m.any (fun p => p.1 == k) then m else m ++ [(k, v)]

/-- main.py lines 344-351: the id-to-title and id-to-name display maps, built
from the full unfiltered registration set before any filter is applied. -/
def buildDisplayMaps (db : DB) :
    Except HErr (List (Nat × String) × List (Nat × String)) :=
  db.registrations.foldlM
    (fun (acc : List (Nat × String) × List (Nat × String)) r => do
      let t ← regEventTitle db r
      let nm ← regVisitorName db r
      pure (setdefault acc.1 r.event_id t, setdefault acc.2 r.visitor_id nm))
    ([], [])

/-- main.py lines 329-371, get_registrations.  The status filter references
`models.Event.status` (not Registration.status) with no join, hence a cross
join of the registration rows with the whole events table. -/
def get_registrations (db : DB) (event_id visitor_id : Option String)
    (sort_by : Option String) (sort_order : Option Int) (status : Option String) :
    Except HErr (List Registration × List (Nat × String) × List (Nat × String)) := do
  if !(validNumStr event_id) then
    throw ⟨400, "Invalid event id"⟩
  if !(validNumStr visitor_id) then
    throw ⟨400, "Invalid visitor id"⟩
  let maps ← buildDisplayMaps db
  let rows := db.registrations
  let rows :=
    if truthyStr event_id then
      rows.filter (fun r => r.event_id == strToNat (event_id.getD ""))
    else rows
  let rows :=
    if truthyStr visitor_id then
      rows.filter (fun r => r.visitor_id == strToNat (visitor_id.getD ""))
    else rows
  let rows :=
    if truthyStr status then
      ((rows.product db.events).filter
        (fun p => p.2.status == status.getD "")).map Prod.fst
    else rows
  let rows ← order_query regAttrs rows sort_by sort_order
  pure (dedupById Registration.id rows, maps.1, maps.2)

/-- main.py lines 115-136, read_event: the event (404 if absent), the visitors
join for this event (a full-entity Query.all(), hence deduplicated by primary
key), and the two aggregate incomes. -/
def read_event (db : DB) (event_id : Nat) :
    Except HErr (Event × List Visitor × Int × Int) :=
  match db.events.find? (fun e => e.id == event_id) with
  | none => .error ⟨404, "Event not found"⟩
  | some ev =>
    let visitors :=
      dedupById Visitor.id
        (((db.visitors.product db.registrations).filter
          (fun p => p.2.visitor_id == p.1.id && p.2.event_id == event_id)).map
          Prod.fst)
    let regs := db.registrations.filter (fun r => r.event_id == event_id)
    let total_income :=
      orZero (sqlSum (regs.map
        (fun r => coalesce0 r.billed_amount - coalesce0 r.refund_amount)))
    let expected_income := orZero (sqlSum (regs.map (fun r => coalesce0 r.price)))
    .ok (ev, visitors, total_income, expected_income)

/-- schemas.py EventCreate construction inside a handler body: the price and
visitor_limit validators raise pydantic ValidationError on a negative value,
which escapes to the app-wide exception handler as a 500 response. -/
def eventCreateValidate (price : Int) (visitor_limit : Option Int) :
    Except HErr Unit :=
  if price < 0 then .error ⟨500, "Internal Server Error"⟩
  else
    match visitor_limit with
    | some v => if v < 0 then .error ⟨500, "Internal Server Error"⟩ else .ok ()
    | none => .ok ()

/-- main.py lines 154-184, create_event.  start_at/end_at arrive already parsed
(datetime coercion is the framework's, out of scope); `price: float = Form(...)`
is modelled at integral values, which pydantic truncates to int. -/
def create_event (db : DB) (title : String) (description : Option String)
    (status : String) (location : String) (start_at end_at : Nat) (price : Int)
    (visitor_limit : Option String) (new_id now : Nat) :
    Except HErr (DB × Redirect) :=
  if !(validNumStr visitor_limit) then
    .error ⟨400, "Invalid visitor limit"⟩
  else
    let vl : Option String := if visitor_limit == some "" then none else visitor_limit
    let vlInt : Option Int := vl.map (fun s => (strToNat s : Int))
    match eventCreateValidate price vlInt with
    | .error e => .error e
    | .ok _ =>
      let ev : Event :=
        { id := new_id, title := title, status := status,
          description := description, start_at := start_at,
          location := location, end_at := end_at, price := price,
          visitor_limit := vlInt, created_at := now, updated_at := now }
      .ok ({ db with events := db.events ++ [ev] },
           ⟨303, "/events/" ++ toString new_id⟩)

/-- main.py lines 185-220, update_event: same validation as create, 404 on a
missing event, then replaces every EventCreate field (created_at/updated_at are
not in the payload and stay). -/
def update_event (db : DB) (event_id : Nat) (title : String)
    (description : Option String) (status : String) (location : String)
    (start_at end_at : Nat) (price : Int) (visitor_limit : Option String) :
    Except HErr (DB × Redirect) :=
  if !(validNumStr visitor_limit) then
    .error ⟨400, "Invalid visitor limit"⟩
  else
    let vl : Option String := if visitor_limit == some "" then none else visitor_limit
    let vlInt : Option Int := vl.map (fun s => (strToNat s : Int))
    match db.events.find? (fun e => e.id == event_id) with
    | none => .error ⟨404, "Event not found"⟩
    | some _ =>
      match eventCreateValidate price vlInt with
      | .error e => .error e
      | .ok _ =>
        let upd : Event → Event := fun e =>
          if e.id == event_id then
            { e with
              title := title,
              description := description,
              status := status,
              location := location,
              start_at := start_at,
              end_at := end_at,
              price := price,
              visitor_limit := vlInt }
          else e
        .ok ({ db with events := db.events.map upd },
             ⟨303, "/events/" ++ toString event_id⟩)

/-- main.py lines 391-417, create_registration: 404 on a missing visitor or
event; price is snapshotted from the event; status is "paid" when the event
price is falsy (zero), else "unpaid". -/
def create_registration (db : DB) (event_id visitor_id : Nat) (new_id now : Nat) :
    Except HErr (DB × Registration × Redirect) :=
  match db.visitors.find? (fun v => v.id == visitor_id) with
  | none => .error ⟨404, "Visitor not found"⟩
  | some _ =>
    match db.events.find? (fun e => e.id == event_id) with
    | none => .error ⟨404, "Event not found"⟩
    | some ev =>
      let reg : Registration :=
        { id := new_id, visitor_id := visitor_id, event_id := event_id,
          status := if ev.price == 0 then "paid" else "unpaid",
          price := some ev.price, billed_amount := none, refund_amount := none,
          billed_at := none, refunded_at := none,
          created_at := now, updated_at := now }
      .ok ({ db with registrations := db.registrations ++ [reg] }, reg,
           ⟨303, "/registrations/"⟩)

/-- main.py lines 425-436: validation/normalization of a billed_amount or
refund_amount form string.  Invalid is a 400; "" normalizes to None; an absent
value falls into `int(x if x else 0)` and becomes the integer 0; a digit string
is int()-converted. -/
def parseAmount (s : Option String) (msg : String) : Except HErr (Option Int) :=
  if !(validNumStr s) then .error ⟨400, msg⟩
  else if s == some "" then .ok none
  else
    match s with
    | none => .ok (some 0)
    | some str => .ok (some (strToNat str))

/-- main.py lines 418-451, update_registration: parse both amounts (400 each on
invalid), 404 on a missing registration, then the two status transitions in
order: billed (requires value > 0 and equal to the stored price) then refund
(requires value > 0); commit replaces the row. -/
def update_registration (db : DB) (registration_id : Nat)
    (billed_form refund_form : Option String) (now : Nat) :
    Except HErr (DB × Registration × Redirect) := do
  let billed ← parseAmount billed_form "Invalid billed amount"
  let refund ← parseAmount refund_form "Invalid refund amount"
  match db.registrations.find? (fun r => r.id == registration_id) with
  | none => throw ⟨404, "Registration not found"⟩
  | some reg0 =>
    let price := reg0.price
    let reg1 :=
      match billed with
      | some b =>
        if b > 0 && some b == price then
          { reg0 with
            status := "paid",
            billed_amount := some b,
            billed_at := some now }
        else reg0
      | none => reg0
    let reg2 :=
      match refund with
      | some rf =>
        if rf > 0 then
          { reg1 with
            status := "refunded",
            refund_amount := some rf,
            refunded_at := some now }
        else reg1
      | none => reg1
    let committed :=
      db.registrations.map (fun r => if r.id == registration_id then reg2 else r)
    pure ({ db with registrations := committed }, reg2, ⟨303, "/registrations/"⟩)

/-- The specification's total_income formula: sum over this event's
registrations of (billed_amount − refund_amount), missing values as zero. -/
def specTotalIncome (db : DB) (event_id : Nat) : Int :=
  ((db.registrations.filter (fun r => r.event_id == event_id)).map
    (fun r => r.billed_amount.getD 0 - r.refund_amount.getD 0)).sum

/-- The specification's expected_income formula: sum of price over this
event's registrations, missing as zero. -/
def specExpectedIncome (db : DB) (event_id : Nat) : Int :=
  ((db.registrations.filter (fun r => r.event_id == event_id)).map
    (fun r => r.price.getD 0)).sum

/-- The event row create_event persists, for use in statements. -/
def mkEvent (nid : Nat) (t : String) (d : Option String) (st loc : String)
    (sa ea : Nat) (p : Int) (vl : Option Int) (now : Nat) : Event :=
  { id := nid, title := t, status := st, description := d, start_at := sa,
    location := loc, end_at := ea, price := p, visitor_limit := vl,
    created_at := now, updated_at := now }

/-- The normalized value produced by the amount-string handling of
update_registration when it does not reject: "" becomes None, an absent value
becomes the integer 0, a digit string its integer value. -/
def parsedAmount : Option String → Option Int
  | none => some 0
  | some s => if s == "" then none else some (strToNat s)

/-- The row state update_registration commits: the billed transition (value
positive and equal to the stored price) followed by the refund transition
(value positive). -/
def regStep (reg : Registration) (billed refund : Option Int) (now : Nat) :
    Registration :=
  let reg1 :=
    match billed with
    | some b =>
      if b > 0 && some b == reg.price then
        { reg with
          status := "paid",
          billed_amount := some b,
          billed_at := some now }
      else reg
    | none => reg
  match refund with
  | some rf =>
    if rf > 0 then
      { reg1 with
        status := "refunded",
        refund_amount := some rf,
        refunded_at := some now }
    else reg1
  | none => reg1

/-- Concrete event fixture for witnesses and counterexamples. -/
def fxEvent (i : Nat) (p : Int) (st : String) : Event :=
  { id := i, title := "E" ++ toString i, status := st, description := none,
    start_at := 0, location := "L", end_at := 0, price := p,
    visitor_limit := none, created_at := 0, updated_at := 0 }

/-- Concrete visitor fixture for witnesses and counterexamples. -/
def fxVisitor (i : Nat) : Visitor :=
  { id := i, first_name := "F" ++ toString i, last_name := "L" ++ toString i,
    phone := toString i, email := none, created_at := 0, updated_at := 0 }

/-- Concrete registration fixture for witnesses and counterexamples. -/
def fxReg (i vid eid : Nat) (st : String) (p : Option Int) : Registration :=
  { id := i, visitor_id := vid, event_id := eid, status := st, price := p,
    billed_amount := none, refund_amount := none, billed_at := none,
    refunded_at := none, created_at := 0, updated_at := 0 }

lemma validNumStr_of_isdigit (s : String) (h : isdigit s = true) :
    validNumStr (some s) = true := by
  simp [validNumStr, h]

lemma parseAmount_ok (x : Option String) (msg : String)
    (h : validNumStr x = true) : parseAmount x msg = .ok (parsedAmount x) := by
  cases x with
  | none => rfl
  | some s =>
    simp only [validNumStr] at h
    simp only [parseAmount, parsedAmount, validNumStr, h]
    rcases Bool.or_eq_true_iff.mp h with he | hd
    · simp [he]
    · have h1 : (s != "") = true := by
        unfold isdigit at hd
        exact (Bool.and_eq_true_iff.mp hd).1
      have hne : (s == "") = false := by
        simpa [bne] using h1
      simp [hne]

/-- Characterization of a successful update_registration call: both amount
strings pass validation and the registration exists. -/
lemma update_registration_ok_eq (db : DB) (rid now : Nat)
    (bf rf : Option String) (reg : Registration)
    (hb : validNumStr bf = true) (hr : validNumStr rf = true)
    (hreg : db.registrations.find? (fun r => r.id == rid) = some reg) :
    update_registration db rid bf rf now =
      .ok ({ db with registrations :=
               db.registrations.map (fun r =>
                 if r.id == rid then
                   regStep reg (parsedAmount bf) (parsedAmount rf) now
                 else r) },
           regStep reg (parsedAmount bf) (parsedAmount rf) now,
           ⟨303, "/registrations/"⟩) := by
  unfold update_registration
  rw [parseAmount_ok bf _ hb, parseAmount_ok rf _ hr]
  simp only [hreg]
  rfl

lemma parseAmount_err (x : Option String) (msg : String)
    (h : validNumStr x = false) : parseAmount x msg = .error ⟨400, msg⟩ := by
  simp [parseAmount, h]

lemma parsedAmount_digits (s : String) (h : isdigit s = true) :
    parsedAmount (some s) = some ((strToNat s : Nat) : Int) := by
  have h1 : (s != "") = true := by
    unfold isdigit at h
    exact (Bool.and_eq_true_iff.mp h).1
  have hne : (s == "") = false := by
    simpa [bne] using h1
  simp [parsedAmount, hne]

lemma orZero_sqlSum (l : List Int) : orZero (sqlSum l) = l.sum := by
  cases l with
  | nil => rfl
  | cons a t =>
    show (if (a :: t).sum = 0 then 0 else (a :: t).sum) = (a :: t).sum
    split <;> omega

/-- C3: for every event-view request on an existing event id (read_event
returns .ok), total_income equals the sum over that event's registrations of
(billed_amount − refund_amount) with missing values as zero, expected_income
equals the sum of price with missing as zero, and both are zero when the event
has no registrations. -/
theorem read_event_income_formulas (db : DB) (eid : Nat) (ev : Event)
    (vs : List Visitor) (ti ei : Int)
    (h : read_event db eid = .ok (ev, vs, ti, ei)) :
    ti = specTotalIncome db eid ∧ ei = specExpectedIncome db eid ∧
    (db.registrations.filter (fun r => r.event_id == eid) = [] →
      ti = 0 ∧ ei = 0) := by
  unfold read_event at h
  cases hf : db.events.find? (fun e => e.id == eid) with
  | none => rw [hf] at h; exact absurd h (by simp)
  | some ev0 =>
    rw [hf] at h
    simp only [Except.ok.injEq, Prod.mk.injEq] at h
    obtain ⟨-, -, hti, hei⟩ := h
    have h1 : ti = specTotalIncome db eid := by
      rw [← hti, orZero_sqlSum]; rfl
    have h2 : ei = specExpectedIncome db eid := by
      rw [← hei, orZero_sqlSum]; rfl
    refine ⟨h1, h2, fun hnil => ?_⟩
    constructor
    · rw [h1]; unfold specTotalIncome; rw [hnil]; rfl
    · rw [h2]; unfold specExpectedIncome; rw [hnil]; rfl

/-- Fixture database for the C3 witness: one event with two registrations,
billed 50 and refunded 20 on the second. -/
def dbW3 : DB :=
  ⟨[fxEvent 1 100 "planning"], [fxVisitor 1],
   [fxReg 1 1 1 "paid" (some 100),
    { fxReg 2 1 1 "paid" (some 50) with
      billed_amount := some 50,
      refund_amount := some 20 }]⟩

/-- C3 witness at a concrete database: total 0 + (50 - 20), expected 100 + 50. -/
theorem read_event_income_formulas_witness :
    (30 : Int) = specTotalIncome dbW3 1 ∧ (150 : Int) = specExpectedIncome dbW3 1 := by
  have h := read_event_income_formulas dbW3 1 (fxEvent 1 100 "planning")
    [fxVisitor 1] 30 150 rfl
  exact ⟨h.1, h.2.1⟩

/-- Fixture for C4: two events, two visitors, a single registration linking
visitor 1 to event 1 only. -/
def dbC4 : DB :=
  ⟨[fxEvent 1 100 "planning", fxEvent 2 50 "planning"],
   [fxVisitor 1, fxVisitor 2],
   [fxReg 1 1 1 "unpaid" (some 100)]⟩

/-- C4: the foreign-key listing filters are NOT applied through a join.  With
visitor 1 registered for event 1 only, the events list filtered by visitor 1
returns both events (implicit cross join), and the visitors list filtered by
event 1 returns both visitors, although visitor 2 has no registration at
all. -/
theorem listing_fk_filter_cross_join_bug :
    get_events dbC4 (some "1") none none none none =
      .ok [fxEvent 1 100 "planning", fxEvent 2 50 "planning"] ∧
    (∀ r ∈ dbC4.registrations, ¬(r.visitor_id = 1 ∧ r.event_id = 2)) ∧
    get_visitors dbC4 (some "1") none none none =
      .ok [fxVisitor 1, fxVisitor 2] ∧
    (∀ r ∈ dbC4.registrations, ¬(r.event_id = 1 ∧ r.visitor_id = 2)) :=
  ⟨rfl, by decide, rfl, by decide⟩

/-- Fixture for C5: one registration with status "paid" whose event has status
"planning". -/
def dbC5 : DB :=
  ⟨[fxEvent 1 100 "planning"], [fxVisitor 1], [fxReg 1 1 1 "paid" (some 100)]⟩

/-- C5: the registrations status filter compares models.Event.status, not the
registration's own status: filtering by "paid" returns nothing although the
only registration has status "paid", while filtering by the event's status
"planning" returns that registration. -/
theorem registrations_status_filter_bug :
    (fxReg 1 1 1 "paid" (some 100)).status = "paid" ∧
    dbC5.registrations = [fxReg 1 1 1 "paid" (some 100)] ∧
    get_registrations dbC5 none none none none (some "paid") =
      .ok ([], [(1, "E1")], [(1, "F1 L1")]) ∧
    get_registrations dbC5 none none none none (some "planning") =
      .ok ([fxReg 1 1 1 "paid" (some 100)], [(1, "E1")], [(1, "F1 L1")]) :=
  ⟨rfl, rfl, rfl, rfl⟩

/-- Fixture shared by the C6 counterexample and witness. -/
def dbC6 : DB :=
  ⟨[fxEvent 1 100 "planning"], [fxVisitor 1], [fxReg 1 1 1 "unpaid" (some 100)]⟩

/-- C6 counterexample: "-1" is neither empty, absent, nor a non-negative
integer string, yet the visitors list accepts it and executes the query,
returning an empty 200 listing instead of failing with a 400. -/
theorem get_visitors_negative_event_id_counterexample :
    validNumStr (some "-1") = false ∧
    get_visitors dbC6 (some "-1") none none none = .ok [] :=
  ⟨rfl, rfl⟩

/-- C7 counterexample: a negative price on event create is rejected by the
pydantic validator inside the handler body, which surfaces through the
app-wide exception handler as a 500 response, not a 400. -/
theorem create_event_negative_price_counterexample :
    create_event ⟨[], [], []⟩ "T" none "planning" "L" 0 0 (-5) none 1 0 =
      .error ⟨500, "Internal Server Error"⟩ :=
  rfl

lemma parseIntQuery_error_eq (x : Option String) (e : HErr)
    (h : parseIntQuery x = .error e) :
    e = ⟨422, "value is not a valid integer"⟩ := by
  unfold parseIntQuery at h
  repeat' split at h
  all_goals first
    | exact Except.noConfusion h
    | (injection h with h1; exact h1.symm)

lemma order_query_error_eq {α : Type} (attrs : String → Option (ModelAttr α))
    (rows : List α) (sb : Option String) (so : Option Int) (e : HErr)
    (h : order_query attrs rows sb so = .error e) :
    e = ⟨500, "Internal Server Error"⟩ := by
  unfold order_query at h
  repeat' split at h
  all_goals first
    | exact Except.noConfusion h
    | (injection h with h1; exact h1.symm)

/-- get_visitors can fail only with the framework 422 on event_id coercion or
a 500 from ordering by a non-column attribute, never with a 400. -/
lemma get_visitors_never_400 (db : DB) (ei sb : Option String) (so : Option Int)
    (se : Option String) (d : String) :
    get_visitors db ei sb so se ≠ .error ⟨400, d⟩ := by
  intro h
  unfold get_visitors at h
  cases hp : parseIntQuery ei with
  | error e2 =>
    rw [hp] at h
    rw [parseIntQuery_error_eq ei e2 hp] at h
    injection h with h1
    exact absurd h1 (by simp)
  | ok eid =>
    rw [hp] at h
    dsimp only [Bind.bind, Except.bind, Pure.pure, Except.pure] at h
    split at h
    · rename_i err heq
      injection h with h1
      rw [order_query_error_eq _ _ _ _ _ heq] at h1
      exact absurd h1 (by simp)
    · exact Except.noConfusion h

/-- C6 (amended): on the events and registrations lists a non-empty
foreign-key filter string that is not a digit string fails with a 400 before
the query runs; on the visitors list event_id is coerced by the framework, so
a non-integer string fails with a framework 422, while any integer string
(negative included) is never rejected with a 400, and with no sort parameters
the handler runs the query and returns a listing. -/
theorem numeric_filter_validation (db : DB) (p q : Option String) (s : String)
    (sb : Option String) (so : Option Int) (se st : Option String) :
    (validNumStr p = false →
      get_events db p sb so se st = .error ⟨400, "Invalid visitor id"⟩) ∧
    (validNumStr p = false →
      get_registrations db p q sb so st = .error ⟨400, "Invalid event id"⟩) ∧
    (validNumStr q = true → validNumStr p = false →
      get_registrations db q p sb so st = .error ⟨400, "Invalid visitor id"⟩) ∧
    (strToInt? s = none →
      get_visitors db (some s) sb so se =
        .error ⟨422, "value is not a valid integer"⟩) ∧
    (∀ n, strToInt? s = some n →
      ∀ d, get_visitors db (some s) sb so se ≠ .error ⟨400, d⟩) ∧
    (∀ n, strToInt? s = some n →
      ∃ vs, get_visitors db (some s) none none se = .ok vs) := by
  refine ⟨fun h => ?_, fun h => ?_, fun hq h => ?_, fun h => ?_,
    fun n h d => ?_, fun n h => ?_⟩
  · unfold get_events; rw [h]; rfl
  · unfold get_registrations; rw [h]; rfl
  · unfold get_registrations; rw [hq, h]; rfl
  · have hp : parseIntQuery (some s) =
        .error ⟨422, "value is not a valid integer"⟩ := by
      simp [parseIntQuery, h]
    unfold get_visitors
    rw [hp]
    rfl
  · exact get_visitors_never_400 db (some s) sb so se d
  · have hp : parseIntQuery (some s) = .ok (some n) := by
      simp [parseIntQuery, h]
    unfold get_visitors
    rw [hp]
    exact ⟨_, rfl⟩

/-- C6 witness: concrete malformed and negative filter values on all three
listings. -/
theorem numeric_filter_validation_witness :
    get_events dbC6 (some "x") none none none none =
      .error ⟨400, "Invalid visitor id"⟩ ∧
    get_registrations dbC6 (some "x") none none none none =
      .error ⟨400, "Invalid event id"⟩ ∧
    get_registrations dbC6 (some "1") (some "x") none none none =
      .error ⟨400, "Invalid visitor id"⟩ ∧
    get_visitors dbC6 (some "x") none none none =
      .error ⟨422, "value is not a valid integer"⟩ ∧
    get_visitors dbC6 (some "-1") none none none ≠
      .error ⟨400, "Invalid visitor id"⟩ ∧
    (get_visitors dbC6 (some "-1") none none none).toOption.isSome = true := by
  refine ⟨(numeric_filter_validation dbC6 (some "x") none "x" none none none none).1 (by decide),
    (numeric_filter_validation dbC6 (some "x") none "x" none none none none).2.1 (by decide),
    (numeric_filter_validation dbC6 (some "x") (some "1") "x" none none none none).2.2.1 (by decide) (by decide),
    (numeric_filter_validation dbC6 (some "x") none "x" none none none none).2.2.2.1 (by decide),
    (numeric_filter_validation dbC6 (some "-1") none "-1" none none none none).2.2.2.2.1
      (-1) (by decide) "Invalid visitor id",
    ?_⟩
  obtain ⟨vs, hvs⟩ :=
    (numeric_filter_validation dbC6 none none "-1" none none none none).2.2.2.2.2
      (-1) (by decide)
  rw [hvs]; rfl

/-- C7 (amended): on event create, a non-digit non-empty visitor_limit string
(such as "-1") is rejected with a 400 and nothing is persisted; a negative
price passes form parsing but fails the schema validator, surfacing as a 500
(not a 400), with nothing persisted; an empty visitor_limit string is accepted
and the event is stored with visitor_limit absent. -/
theorem create_event_boundary (db : DB) (t : String) (d : Option String)
    (st loc : String) (sa ea : Nat) (p : Int) (vl : String) (nid now : Nat) :
    (validNumStr (some vl) = false →
      create_event db t d st loc sa ea p (some vl) nid now =
        .error ⟨400, "Invalid visitor limit"⟩) ∧
    (p < 0 → validNumStr (some vl) = true →
      create_event db t d st loc sa ea p (some vl) nid now =
        .error ⟨500, "Internal Server Error"⟩) ∧
    (0 ≤ p →
      create_event db t d st loc sa ea p (some "") nid now =
        .ok ({ db with events := db.events ++ [mkEvent nid t d st loc sa ea p none now] },
             ⟨303, "/events/" ++ toString nid⟩)) := by
  refine ⟨fun h => ?_, fun hp hvl => ?_, fun hp => ?_⟩
  · simp [create_event, h]
  · simp [create_event, hvl, eventCreateValidate, hp]
  · simp [create_event, eventCreateValidate, mkEvent, validNumStr, not_lt.mpr hp]

/-- C7 witness: the three boundary submissions at a concrete database. -/
theorem create_event_boundary_witness :
    create_event ⟨[], [], []⟩ "T" none "planning" "L" 0 0 10 (some "-1") 1 0 =
      .error ⟨400, "Invalid visitor limit"⟩ ∧
    create_event ⟨[], [], []⟩ "T" none "planning" "L" 0 0 (-7) (some "5") 1 0 =
      .error ⟨500, "Internal Server Error"⟩ ∧
    create_event ⟨[], [], []⟩ "T" none "planning" "L" 0 0 10 (some "") 1 0 =
      .ok (⟨[mkEvent 1 "T" none "planning" "L" 0 0 10 none 0], [], []⟩,
           ⟨303, "/events/1"⟩) := by
  refine ⟨(create_event_boundary ⟨[], [], []⟩ "T" none "planning" "L" 0 0 10 "-1" 1 0).1 (by decide),
    (create_event_boundary ⟨[], [], []⟩ "T" none "planning" "L" 0 0 (-7) "5" 1 0).2.1 (by decide) (by decide),
    ?_⟩
  have h := (create_event_boundary ⟨[], [], []⟩ "T" none "planning" "L" 0 0 10 "" 1 0).2.2
    (by decide)
  simpa using h

lemma regStep_price (reg : Registration) (b r : Option Int) (now : Nat) :
    (regStep reg b r now).price = reg.price := by
  unfold regStep
  cases b <;> cases r <;> dsimp only <;> (repeat' split) <;> rfl

/-- C2: a created registration snapshots the event's price and derives its
initial status from it ("paid" iff that price is zero, else "unpaid"); the
price is never re-derived: update_registration preserves the stored price and
update_event leaves the registrations table untouched. -/
theorem create_registration_price_snapshot (db : DB)
    (event_id visitor_id new_id now : Nat) (ev : Event)
    (hvis : (db.visitors.find? (fun v => v.id == visitor_id)).isSome = true)
    (hev : db.events.find? (fun e => e.id == event_id) = some ev) :
    (∃ db' reg rd, create_registration db event_id visitor_id new_id now =
        .ok (db', reg, rd) ∧
      reg.price = some ev.price ∧
      reg.status = (if ev.price = 0 then "paid" else "unpaid") ∧
      db'.registrations = db.registrations ++ [reg]) ∧
    (∀ rid bf rf n2 db2 reg2 rd2 reg0,
      db.registrations.find? (fun r => r.id == rid) = some reg0 →
      update_registration db rid bf rf n2 = .ok (db2, reg2, rd2) →
      reg2.price = reg0.price) ∧
    (∀ eid t d st loc sa ea pr vl db2 rd2,
      update_event db eid t d st loc sa ea pr vl = .ok (db2, rd2) →
      db2.registrations = db.registrations) := by
  refine ⟨?_, ?_, ?_⟩
  · obtain ⟨v, hv⟩ := Option.isSome_iff_exists.mp hvis
    simp only [create_registration, hv, hev]
    refine ⟨_, _, _, rfl, rfl, ?_, rfl⟩
    by_cases h : ev.price = 0 <;> simp [h]
  · intro rid bf rf n2 db2 reg2 rd2 reg0 hfind hupd
    cases hb : validNumStr bf with
    | false =>
      unfold update_registration at hupd
      rw [parseAmount_err bf _ hb] at hupd
      exact Except.noConfusion hupd
    | true =>
      cases hr : validNumStr rf with
      | false =>
        unfold update_registration at hupd
        rw [parseAmount_ok bf _ hb, parseAmount_err rf _ hr] at hupd
        exact Except.noConfusion hupd
      | true =>
        rw [update_registration_ok_eq db rid n2 bf rf reg0 hb hr hfind] at hupd
        simp only [Except.ok.injEq, Prod.mk.injEq] at hupd
        rw [← hupd.2.1, regStep_price]
  · intro eid t d st loc sa ea pr vl db2 rd2 h
    unfold update_event at h
    dsimp only at h
    repeat' split at h
    all_goals first
      | exact Except.noConfusion h
      | (simp only [Except.ok.injEq, Prod.mk.injEq] at h
         rw [← h.1])

/-- Fixture database for the C2 witness: a free event and a visitor. -/
def dbW2 : DB := ⟨[fxEvent 1 0 "planning"], [fxVisitor 1], []⟩

/-- C2 witness: registering for a free event snapshots price 0 and starts
"paid". -/
theorem create_registration_price_snapshot_witness :
    (create_registration dbW2 1 1 5 7).toOption.map
        (fun x => (x.2.1.price, x.2.1.status)) = some (some 0, "paid") := by
  obtain ⟨⟨db', reg, rd, hok, hp, hs, -⟩, -, -⟩ :=
    create_registration_price_snapshot dbW2 1 1 5 7 (fxEvent 1 0 "planning") rfl rfl
  rw [hok]
  show some (reg.price, reg.status) = some (some 0, "paid")
  rw [hp, hs]
  simp [fxEvent]

/-- C1 counterexample: on a registration whose stored price is 0, the
submitted billed_amount "0" is a valid integer string equal to the stored
price, yet the update stores nothing and stamps nothing (the code additionally
requires the billed value to be strictly positive): the call succeeds and the
row is returned unchanged, with billed_amount and billed_at still absent. -/
theorem billed_equal_price_not_stamped_counterexample :
    isdigit "0" = true ∧
    (fxReg 1 1 1 "paid" (some 0)).price = some ((strToNat "0" : Nat) : Int) ∧
    update_registration ⟨[], [], [fxReg 1 1 1 "paid" (some 0)]⟩ 1
        (some "0") none 99 =
      .ok (⟨[], [], [fxReg 1 1 1 "paid" (some 0)]⟩, fxReg 1 1 1 "paid" (some 0),
           ⟨303, "/registrations/"⟩) ∧
    (fxReg 1 1 1 "paid" (some 0)).billed_amount = none ∧
    (fxReg 1 1 1 "paid" (some 0)).billed_at = none :=
  ⟨rfl, rfl, rfl, rfl, rfl⟩

/-- C1 (amended): on a registration update whose amount strings pass
validation, (1) a billed_amount digit string parsing to a value that is
positive and equal to the stored price stores that value, stamps billed_at,
and moves status to "paid" unless a positive refund in the same call moves it
on; (2) a refund_amount digit string parsing to a positive value moves status
to "refunded", stores the value and stamps refunded_at; (3) both transitions
may apply in the same call. -/
theorem update_registration_transitions (db : DB) (rid now : Nat)
    (bf rf : Option String) (reg : Registration)
    (hreg : db.registrations.find? (fun r => r.id == rid) = some reg)
    (hbf : validNumStr bf = true) (hrf : validNumStr rf = true) :
    (∀ s, bf = some s → isdigit s = true → 0 < strToNat s →
      some ((strToNat s : Nat) : Int) = reg.price →
      ∃ db' reg', update_registration db rid bf rf now =
          .ok (db', reg', ⟨303, "/registrations/"⟩) ∧
        reg'.billed_amount = some ((strToNat s : Nat) : Int) ∧
        reg'.billed_at = some now ∧
        (parsedAmount rf = none ∨ parsedAmount rf = some 0 →
          reg'.status = "paid")) ∧
    (∀ t, rf = some t → isdigit t = true → 0 < strToNat t →
      ∃ db' reg', update_registration db rid bf rf now =
          .ok (db', reg', ⟨303, "/registrations/"⟩) ∧
        reg'.status = "refunded" ∧
        reg'.refund_amount = some ((strToNat t : Nat) : Int) ∧
        reg'.refunded_at = some now) ∧
    (∀ s t, bf = some s → rf = some t → isdigit s = true → 0 < strToNat s →
      some ((strToNat s : Nat) : Int) = reg.price →
      isdigit t = true → 0 < strToNat t →
      ∃ db', update_registration db rid bf rf now =
        .ok (db',
          { reg with
            status := "refunded",
            billed_amount := some ((strToNat s : Nat) : Int),
            billed_at := some now,
            refund_amount := some ((strToNat t : Nat) : Int),
            refunded_at := some now },
          ⟨303, "/registrations/"⟩)) := by
  refine ⟨?_, ?_, ?_⟩
  · intro s hbfs hdig hpos heq
    subst hbfs
    refine ⟨_, _, update_registration_ok_eq db rid now (some s) rf reg hbf hrf hreg,
      ?_, ?_, ?_⟩
    · rw [parsedAmount_digits s hdig]
      unfold regStep
      cases hpr : parsedAmount rf with
      | none => simp [hpos, ← heq]
      | some v => by_cases hv : 0 < v <;> simp [hpos, ← heq, hv]
    · rw [parsedAmount_digits s hdig]
      unfold regStep
      cases hpr : parsedAmount rf with
      | none => simp [hpos, ← heq]
      | some v => by_cases hv : 0 < v <;> simp [hpos, ← heq, hv]
    · intro hor
      rw [parsedAmount_digits s hdig]
      unfold regStep
      rcases hor with h0 | h0 <;> rw [h0] <;> simp [hpos, ← heq]
  · intro t hrft hdig hpos
    subst hrft
    refine ⟨_, _, update_registration_ok_eq db rid now bf (some t) reg hbf hrf hreg,
      ?_, ?_, ?_⟩
    all_goals
      rw [parsedAmount_digits t hdig]
      unfold regStep
      simp [hpos]
  · intro s t hbfs hrft hdigs hposs heqs hdigt hpost
    subst hbfs
    subst hrft
    have hstep : regStep reg (some ((strToNat s : Nat) : Int))
        (some ((strToNat t : Nat) : Int)) now =
        { reg with
          status := "refunded",
          billed_amount := some ((strToNat s : Nat) : Int),
          billed_at := some now,
          refund_amount := some ((strToNat t : Nat) : Int),
          refunded_at := some now } := by
      unfold regStep
      simp [hposs, ← heqs, hpost]
    exact ⟨_, by
      rw [update_registration_ok_eq db rid now (some s) (some t) reg hbf hrf hreg,
        parsedAmount_digits s hdigs, parsedAmount_digits t hdigt, hstep]⟩

/-- Fixture database shared by the update_registration witnesses. -/
def dbW : DB := ⟨[], [], [fxReg 1 1 1 "unpaid" (some 100)]⟩

/-- C1 witness: billing 100 against price 100 with a refund of 40 in the same
call sets all four payment fields and leaves the final status "refunded". -/
theorem update_registration_transitions_witness :
    (update_registration dbW 1 (some "100") (some "40") 9).toOption.map
        (fun x => (x.2.1.billed_amount, x.2.1.billed_at, x.2.1.status,
                   x.2.1.refund_amount, x.2.1.refunded_at)) =
      some (some 100, some 9, "refunded", some 40, some 9) := by
  obtain ⟨db', h⟩ :=
    (update_registration_transitions dbW 1 9 (some "100") (some "40")
        (fxReg 1 1 1 "unpaid" (some 100)) rfl rfl rfl).2.2
      "100" "40" rfl rfl rfl (by decide) (by decide) rfl (by decide)
  rw [h]
  rfl

/-- C9: when both the paid condition (billed digit string, positive, equal to
the stored price) and the refund condition (refund digit string, positive)
hold, the refund transition is applied after the billed one, so the persisted
row has status "refunded" with billed_amount, billed_at, refund_amount and
refunded_at all set. -/
theorem update_registration_refund_wins (db : DB) (rid now : Nat)
    (sb sr : String) (reg : Registration)
    (hreg : db.registrations.find? (fun r => r.id == rid) = some reg)
    (hdb : isdigit sb = true) (hpb : 0 < strToNat sb)
    (heq : some ((strToNat sb : Nat) : Int) = reg.price)
    (hdr : isdigit sr = true) (hpr : 0 < strToNat sr) :
    ∃ db', update_registration db rid (some sb) (some sr) now =
      .ok (db',
        { reg with
          status := "refunded",
          billed_amount := some ((strToNat sb : Nat) : Int),
          billed_at := some now,
          refund_amount := some ((strToNat sr : Nat) : Int),
          refunded_at := some now },
        ⟨303, "/registrations/"⟩) := by
  have hstep : regStep reg (some ((strToNat sb : Nat) : Int))
      (some ((strToNat sr : Nat) : Int)) now =
      { reg with
        status := "refunded",
        billed_amount := some ((strToNat sb : Nat) : Int),
        billed_at := some now,
        refund_amount := some ((strToNat sr : Nat) : Int),
        refunded_at := some now } := by
    unfold regStep
    simp [hpb, ← heq, hpr]
  exact ⟨_, by
    rw [update_registration_ok_eq db rid now (some sb) (some sr) reg
        (validNumStr_of_isdigit sb hdb) (validNumStr_of_isdigit sr hdr) hreg,
      parsedAmount_digits sb hdb, parsedAmount_digits sr hdr, hstep]⟩

/-- C9 witness: billed 100 equal to price 100 together with refund 40. -/
theorem update_registration_refund_wins_witness :
    (update_registration dbW 1 (some "100") (some "40") 3).toOption.map
        (fun x => x.2.1.status) = some "refunded" := by
  obtain ⟨db', h⟩ := update_registration_refund_wins dbW 1 3 "100" "40"
    (fxReg 1 1 1 "unpaid" (some 100)) rfl rfl (by decide) rfl rfl (by decide)
  rw [h]
  rfl

/-- C10: a billed_amount digit string parsing to a positive value different
from the stored price, with no refund condition firing, is silently discarded:
the call succeeds with the 303 redirect and both the returned row and the
database are unchanged. -/
theorem update_registration_billed_mismatch_frame (db : DB) (rid now : Nat)
    (s : String) (rf : Option String) (reg : Registration)
    (hreg : db.registrations.find? (fun r => r.id == rid) = some reg)
    (huniq : ∀ r ∈ db.registrations, r.id = reg.id → r = reg)
    (hdig : isdigit s = true) (hpos : 0 < strToNat s)
    (hne : some ((strToNat s : Nat) : Int) ≠ reg.price)
    (hrfv : validNumStr rf = true)
    (hnof : parsedAmount rf = none ∨ parsedAmount rf = some 0) :
    update_registration db rid (some s) rf now =
      .ok (db, reg, ⟨303, "/registrations/"⟩) := by
  rw [update_registration_ok_eq db rid now (some s) rf reg
      (validNumStr_of_isdigit s hdig) hrfv hreg]
  have hstep : regStep reg (parsedAmount (some s)) (parsedAmount rf) now = reg := by
    rw [parsedAmount_digits s hdig]
    unfold regStep
    rcases hnof with h0 | h0 <;> rw [h0] <;> simp [hne]
  rw [hstep]
  have hid := List.find?_some hreg
  have hmap : db.registrations.map (fun r => if r.id == rid then reg else r) =
      db.registrations := by
    have hpt : ∀ r ∈ db.registrations, (if r.id == rid then reg else r) = r := by
      intro r hr
      by_cases hcase : (r.id == rid) = true
      · rw [if_pos hcase]
        refine (huniq r hr ?_).symm
        have h1 : r.id = rid := by simpa using hcase
        have h2 : reg.id = rid := by simpa using hid
        rw [h1, h2]
      · rw [if_neg hcase]
    calc db.registrations.map (fun r => if r.id == rid then reg else r)
        = db.registrations.map id := List.map_congr_left hpt
      _ = db.registrations := List.map_id _
  rw [hmap]

/-- C10 witness: billing 55 against a price of 100 changes nothing and still
redirects. -/
theorem update_registration_billed_mismatch_frame_witness :
    update_registration dbW 1 (some "55") none 9 =
      .ok (dbW, fxReg 1 1 1 "unpaid" (some 100), ⟨303, "/registrations/"⟩) :=
  update_registration_billed_mismatch_frame dbW 1 9 "55" none
    (fxReg 1 1 1 "unpaid" (some 100)) rfl (by decide) rfl (by decide)
    (by decide) rfl (Or.inr rfl)

end EventAdmin
